import Mathlib

/-!
Verification development for the Cursory cursor-trail controller
(src/cursory.js). The controller keeps a configuration, an ordered list of
trail markers, the latest pointer coordinates, an animation-frame handle and
an initialization flag, and exposes init, trackMouse, animate, updateConfig
and destroy.

Modelling choices, each tied to the source:
- JS numbers that carry coordinates, speeds, sizes and opacities become
  rationals; trailLength and maxTrails become integers (the interface
  declares trailLength an integer).
- A trail object holds its DOM element and its x, y fields
  (cursory.js line 51); the element is modelled by the style fields the
  code writes: width, height, backgroundColor, opacity and the translate
  transform.
- Function identity of mousemove handlers matters: every call of
  Function.prototype.bind creates a fresh function object. The state keeps
  a counter of bind calls and the list of handler identities currently
  registered on window for mousemove. init (line 55) registers a fresh
  bound trackMouse; destroy (line 155) passes another fresh bound function
  to removeEventListener.
- requestAnimationFrame handles are modelled by a counter.
- trails.pop() on an empty array yields undefined and the following
  element access throws; updateConfig therefore returns an Option, none
  on that throw. All other operations are total.
-/

namespace Cursory

/-- Configuration record, the six options of defaultOptions
(cursory.js lines 25-32). -/
structure Config where
  trailColor : String
  trailLength : ℤ
  trailSpeed : ℚ
  cursorSize : ℚ
  opacity : ℚ
  followSpeed : ℚ
deriving DecidableEq

/-- A configuration argument as passed to init and updateConfig: every
recognized key may be absent. -/
structure OptConfig where
  trailColor : Option String := none
  trailLength : Option ℤ := none
  trailSpeed : Option ℚ := none
  cursorSize : Option ℚ := none
  opacity : Option ℚ := none
  followSpeed : Option ℚ := none
deriving DecidableEq

/-- A mousemove event carrying viewport coordinates. -/
structure MouseEvent where
  clientX : ℚ
  clientY : ℚ
deriving DecidableEq

/-- The style fields of a trail div that the code writes
(cursory.js lines 42-49): width, height, backgroundColor, opacity and the
translate(x, y) transform. -/
structure Elem where
  width : ℚ
  height : ℚ
  backgroundColor : String
  opacity : ℚ
  tx : ℚ
  ty : ℚ
deriving DecidableEq

/-- One trail marker: the element plus the current position
(cursory.js line 51). -/
structure Trail where
  element : Elem
  x : ℚ
  y : ℚ
deriving DecidableEq

/-- The whole controller state: the fields of the Cursory object
(cursory.js lines 10-17) plus the host-environment resources the code
manipulates (registered mousemove handler identities, the bind-call
counter, the frame-handle counter). -/
structure CursoryState where
  config : Config
  trails : List Trail
  maxTrails : ℤ
  animationFrame : Option ℕ
  isInitialized : Bool
  mouseX : ℚ
  mouseY : ℚ
  listeners : List ℕ
  nextBindId : ℕ
  nextFrameId : ℕ
deriving DecidableEq

/-- The defaults of init (cursory.js lines 25-32). -/
def defaultOptions : Config where
  trailColor := "#00ffea"
  trailLength := 10
  trailSpeed := 1/2
  cursorSize := 10
  opacity := 7/10
  followSpeed := 1/5

/-- Object spread merge: keys present in the argument override the base
(cursory.js line 33 and line 101). -/
def mergeConfig (base : Config) (p : OptConfig) : Config where
  trailColor := p.trailColor.getD base.trailColor
  trailLength := p.trailLength.getD base.trailLength
  trailSpeed := p.trailSpeed.getD base.trailSpeed
  cursorSize := p.cursorSize.getD base.cursorSize
  opacity := p.opacity.getD base.opacity
  followSpeed := p.followSpeed.getD base.followSpeed

/-- The state before any operation runs (cursory.js lines 10-17). The
source initializes the config field to the empty object; no operation
reads the config before init assigns it (animate reads followSpeed only
inside the loop over trails, and trails is empty until init runs), so the
placeholder value defaultOptions is never observable. -/
def initialState : CursoryState where
  config := defaultOptions
  trails := []
  maxTrails := 10
  animationFrame := none
  isInitialized := false
  mouseX := 0
  mouseY := 0
  listeners := []
  nextBindId := 0
  nextFrameId := 0

/-- A freshly created trail div (cursory.js lines 40-51 and 117-128): the
element is styled from the config and placed at the current mouse
position, and the trail position starts there. -/
def newTrail (cfg : Config) (mx my : ℚ) : Trail where
  element :=
    { width := cfg.cursorSize
      height := cfg.cursorSize
      backgroundColor := cfg.trailColor
      opacity := cfg.opacity
      tx := mx
      ty := my }
  x := mx
  y := my

/-- One loop iteration of animate (cursory.js lines 77-86): easing update
of the position, then the transform is set from the updated position. -/
def updateTrail (mx my fs : ℚ) (t : Trail) : Trail :=
  let dx := mx - t.x
  let dy := my - t.y
  let nx := t.x + dx * fs
  let ny := t.y + dy * fs
  { element := { t.element with tx := nx, ty := ny }, x := nx, y := ny }

/-- The for loop of animate over the trails array (cursory.js lines
76-87), each iteration touching only trails[i]. -/
def animateTrails (mx my fs : ℚ) : List Trail → List Trail
  | [] => []
  | t :: ts => updateTrail mx my fs t :: animateTrails mx my fs ts

/-- animate (cursory.js lines 74-91): update every trail, then schedule
the next frame via requestAnimationFrame. -/
def animate (s : CursoryState) : CursoryState :=
  { s with
    trails := animateTrails s.mouseX s.mouseY s.config.followSpeed s.trails
    animationFrame := some s.nextFrameId
    nextFrameId := s.nextFrameId + 1 }

/-- trackMouse (cursory.js lines 66-69): store the event coordinates. -/
def trackMouse (e : MouseEvent) (s : CursoryState) : CursoryState :=
  { s with mouseX := e.clientX, mouseY := e.clientY }

/-- init (cursory.js lines 23-60): merge the defaults with the argument,
set maxTrails, push maxTrails new trails, register a fresh bound
trackMouse on mousemove, run animate once (which schedules the loop), and
finally set isInitialized. -/
def init (p : OptConfig) (s : CursoryState) : CursoryState :=
  let cfg := mergeConfig defaultOptions p
  let s1 : CursoryState :=
    { s with
      config := cfg
      maxTrails := cfg.trailLength
      trails := s.trails ++
        List.replicate cfg.trailLength.toNat (newTrail cfg s.mouseX s.mouseY)
      listeners := s.listeners ++ [s.nextBindId]
      nextBindId := s.nextBindId + 1 }
  let s2 := animate s1
  { s2 with isInitialized := true }

/-- The restyling updateConfig applies to every existing trail
(cursory.js lines 104-109): width, height, backgroundColor and opacity
from the merged config; the transform is not touched. -/
def restyleTrail (cfg : Config) (t : Trail) : Trail :=
  { t with
    element :=
      { t.element with
        width := cfg.cursorSize
        height := cfg.cursorSize
        backgroundColor := cfg.trailColor
        opacity := cfg.opacity } }

/-- The removal loop of updateConfig (cursory.js lines 133-136): pop the
last trail n times. trails.pop() on an empty array yields undefined and
the subsequent access of trail.element throws, modelled as none. -/
def popTrails : ℕ → List Trail → Option (List Trail)
  | 0, l => some l
  | n + 1, l => if l.isEmpty then none else popTrails n l.dropLast

/-- updateConfig (cursory.js lines 97-140). The guard on line 112 tests
the raw argument with JS truthiness: it requires trailLength to be
present, nonzero and different from maxTrails before any trail is added
or removed; the merged config is stored in every non-guarded path. -/
def updateConfig (p : OptConfig) (s : CursoryState) : Option CursoryState :=
  if s.isInitialized = false then some s else
  let cfg := mergeConfig s.config p
  let restyled := s.trails.map (restyleTrail cfg)
  match p.trailLength with
  | none => some { s with config := cfg, trails := restyled }
  | some k =>
    if k ≠ 0 ∧ k ≠ s.maxTrails then
      if s.maxTrails < k then
        some { s with
          config := cfg
          trails := restyled ++
            List.replicate (k - s.maxTrails).toNat (newTrail cfg s.mouseX s.mouseY)
          maxTrails := cfg.trailLength }
      else
        match popTrails (s.maxTrails - k).toNat restyled with
        | none => none
        | some rest =>
          some { s with config := cfg, trails := rest, maxTrails := cfg.trailLength }
    else some { s with config := cfg, trails := restyled }

/-- destroy (cursory.js lines 145-161): guard on the flag, remove the
trail elements, empty the trails array, call removeEventListener with a
FRESH bound trackMouse (line 155) - a new function object, so the handler
registered by init is not the one being removed and List.erase of the
fresh identity finds nothing - then cancel the animation frame and clear
the flag. -/
def destroy (s : CursoryState) : CursoryState :=
  if s.isInitialized = false then s else
  { s with
    trails := []
    listeners := s.listeners.erase s.nextBindId
    nextBindId := s.nextBindId + 1
    animationFrame := none
    isInitialized := false }

/-- Dispatch of a mousemove event by the host environment: every handler
currently registered for mousemove runs once. The only handler the code
ever registers is a bound Cursory.trackMouse (cursory.js line 55), so
each registered identity runs trackMouse. -/
def dispatchMouseMove (e : MouseEvent) (s : CursoryState) : CursoryState :=
  s.listeners.foldl (fun st _ => trackMouse e st) s

/-- A configuration argument carrying only trailLength. -/
def tlOnly (k : ℤ) : OptConfig := { trailLength := some k }

/-- The empty configuration argument. -/
def pcEmpty : OptConfig := {}

/-- Squared Euclidean distance from a trail to the point (mx, my). -/
def distSq (mx my : ℚ) (t : Trail) : ℚ := (mx - t.x) ^ 2 + (my - t.y) ^ 2

/-- A pointer-move or frame-tick event, for runs that compare two
configurations. -/
inductive MTEvent where
  | move (e : MouseEvent)
  | tick
deriving DecidableEq

/-- Run a sequence of pointer moves and ticks. -/
def runMT : List MTEvent → CursoryState → CursoryState
  | [], s => s
  | MTEvent.move e :: es, s => runMT es (trackMouse e s)
  | MTEvent.tick :: es, s => runMT es (animate s)

/-- Overwrite the trailSpeed option with a fixed value, leaving every
other part of the state alone. -/
def scrubTS (s : CursoryState) : CursoryState :=
  { s with config := { s.config with trailSpeed := 0 } }

/-- Every trailLength supplied by the argument is a non-negative
integer. -/
def goodTL (p : OptConfig) : Prop := ∀ k, p.trailLength = some k → 0 ≤ k

/-- States reachable from the pristine state by operation sequences in
which every supplied trailLength is non-negative and init runs only on a
non-initialized controller. updateConfig steps are those that return
normally. -/
inductive Reachable : CursoryState → Prop where
  | initial : Reachable initialState
  | step_init {s : CursoryState} {p : OptConfig} : Reachable s →
      s.isInitialized = false → goodTL p → Reachable (init p s)
  | step_track {s : CursoryState} {e : MouseEvent} : Reachable s →
      Reachable (trackMouse e s)
  | step_animate {s : CursoryState} : Reachable s → Reachable (animate s)
  | step_update {s s₂ : CursoryState} {p : OptConfig} : Reachable s →
      goodTL p → updateConfig p s = some s₂ → Reachable s₂
  | step_destroy {s : CursoryState} : Reachable s → Reachable (destroy s)

/-- The invariant carried through every reachable state: while
initialized the trails array has exactly maxTrails entries, and while not
initialized it is empty. -/
def StateInv (s : CursoryState) : Prop :=
  (s.isInitialized = true → (s.trails.length : ℤ) = s.maxTrails) ∧
  (s.isInitialized = false → s.trails = [])

/- ## Helper lemmas -/

theorem animateTrails_eq_map (mx my fs : ℚ) (l : List Trail) :
    animateTrails mx my fs l = l.map (updateTrail mx my fs) := by
  induction l with
  | nil => rfl
  | cons t ts ih => simp [animateTrails, ih]

theorem length_animateTrails (mx my fs : ℚ) (l : List Trail) :
    (animateTrails mx my fs l).length = l.length := by
  rw [animateTrails_eq_map]; simp

theorem popTrails_spec (n : ℕ) (l : List Trail) (h : n ≤ l.length) :
    ∃ l₂, popTrails n l = some l₂ ∧ l₂.length = l.length - n := by
  induction n generalizing l with
  | zero => exact ⟨l, rfl, by simp⟩
  | succ n ih =>
    have hne : l.isEmpty = false := by
      cases l with
      | nil => simp at h
      | cons a as => rfl
    have hlen : n ≤ l.dropLast.length := by
      simp [List.length_dropLast]; omega
    obtain ⟨l₂, h1, h2⟩ := ih l.dropLast hlen
    refine ⟨l₂, ?_, ?_⟩
    · simp [popTrails, hne, h1]
    · rw [h2, List.length_dropLast]; omega

theorem updateTrail_stationary (cfg : Config) (mx my fs : ℚ) :
    updateTrail mx my fs (newTrail cfg mx my) = newTrail cfg mx my := by
  simp [updateTrail, newTrail]

theorem updateConfig_adjust (p : OptConfig) (s : CursoryState)
    (h1 : s.isInitialized = true) (h2 : (s.trails.length : ℤ) = s.maxTrails)
    (hp : goodTL p) :
    ∃ s₂, updateConfig p s = some s₂ ∧
      s₂.isInitialized = s.isInitialized ∧
      (s₂.trails.length : ℤ) = s₂.maxTrails ∧
      (∀ k, p.trailLength = some k → 1 ≤ k → (s₂.trails.length : ℤ) = k) ∧
      (p.trailLength = some 0 → s₂.trails.length = s.trails.length) := by
  rw [updateConfig]
  rw [if_neg (by simp [h1])]
  cases hpl : p.trailLength with
  | none =>
    refine ⟨_, rfl, rfl, ?_, ?_, ?_⟩
    · simpa using h2
    · intro k hk; exact absurd hk (by simp)
    · intro hk; exact absurd hk (by simp)
  | some k =>
    have hk0 : 0 ≤ k := hp k hpl
    dsimp only
    by_cases hg : k ≠ 0 ∧ k ≠ s.maxTrails
    · rw [if_pos hg]
      by_cases hlt : s.maxTrails < k
      · rw [if_pos hlt]
        refine ⟨_, rfl, rfl, ?_, ?_, ?_⟩
        · simp only [mergeConfig, hpl, Option.getD_some]
          simp only [List.length_append, List.length_map, List.length_replicate]
          push_cast
          rw [Int.toNat_of_nonneg (by omega)]
          omega
        · intro k₂ hk₂ _
          obtain rfl : k = k₂ := by simpa using hk₂
          simp only [List.length_append, List.length_map, List.length_replicate]
          push_cast
          rw [Int.toNat_of_nonneg (by omega)]
          omega
        · intro hzero
          obtain rfl : k = 0 := by simpa using hzero
          exact absurd rfl hg.1
      · rw [if_neg hlt]
        have hklt : k < s.maxTrails := lt_of_le_of_ne (not_lt.mp hlt) hg.2
        have hle : (s.maxTrails - k).toNat ≤ (s.trails.map (restyleTrail (mergeConfig s.config p))).length := by
          simp only [List.length_map]
          omega
        obtain ⟨l₂, hpop, hlen⟩ := popTrails_spec _ _ hle
        rw [hpop]
        refine ⟨_, rfl, rfl, ?_, ?_, ?_⟩
        · simp only [mergeConfig, hpl, Option.getD_some]
          simp only [List.length_map] at hlen
          rw [hlen]
          omega
        · intro k₂ hk₂ _
          obtain rfl : k = k₂ := by simpa using hk₂
          simp only [List.length_map] at hlen
          rw [hlen]
          omega
        · intro hzero
          obtain rfl : k = 0 := by simpa using hzero
          exact absurd rfl hg.1
    · rw [if_neg hg]
      push_neg at hg
      refine ⟨_, rfl, rfl, ?_, ?_, ?_⟩
      · simpa using h2
      · intro k₂ hk₂ hk₂1
        obtain rfl : k = k₂ := by simpa using hk₂
        have : k = s.maxTrails := by
          by_cases hz : k = 0
          · omega
          · exact hg hz
        simp only [List.length_map]
        omega
      · intro _; simp

/- ## Claim theorems -/

/-- Claim C3: each per-frame update moves every marker by exactly the
easing formula new_pos = pos + (target - pos) * followSpeed in both
coordinates (writing the result to the element transform as well);
concretely, after init with trailLength 3 and followSpeed 1/2 and the
pointer moved from (0,0) to (100,0), every marker has x = 50 after one
tick and x = 75 after a second tick. -/
theorem C3_animate_easing :
    (∀ s : CursoryState, (animate s).trails = s.trails.map (fun t =>
      { element := { t.element with
          tx := t.x + (s.mouseX - t.x) * s.config.followSpeed
          ty := t.y + (s.mouseY - t.y) * s.config.followSpeed }
        x := t.x + (s.mouseX - t.x) * s.config.followSpeed
        y := t.y + (s.mouseY - t.y) * s.config.followSpeed : Trail })) ∧
    (animate (trackMouse ⟨100, 0⟩
        (init { trailLength := some 3, followSpeed := some (1/2) }
          initialState))).trails.map (fun t => t.x) = [50, 50, 50] ∧
    (animate (animate (trackMouse ⟨100, 0⟩
        (init { trailLength := some 3, followSpeed := some (1/2) }
          initialState)))).trails.map (fun t => t.x) = [75, 75, 75] := by
  refine ⟨fun s => ?_,
    by norm_num [init, animate, trackMouse, initialState, mergeConfig,
      defaultOptions, newTrail, updateTrail, animateTrails, List.replicate],
    by norm_num [init, animate, trackMouse, initialState, mergeConfig,
      defaultOptions, newTrail, updateTrail, animateTrails, List.replicate]⟩
  show animateTrails s.mouseX s.mouseY s.config.followSpeed s.trails = _
  rw [animateTrails_eq_map]
  rfl

/-- Claim C7: teardown is idempotent - in every state, destroy twice in
a row leaves the controller exactly as destroy once does; the second
call hits the initialization guard and changes nothing. -/
theorem C7_destroy_idem (s : CursoryState) :
    destroy (destroy s) = destroy s := by
  by_cases h : s.isInitialized = false <;> simp [destroy, h]

/-- Claim C8: with the controller not initialized, updateConfig is a
guarded no-op - it returns the state unchanged (configuration, trails,
maxTrails, pointer state and flag included) and signals no fault. -/
theorem C8_updateConfig_noop (p : OptConfig) (s : CursoryState)
    (h : s.isInitialized = false) : updateConfig p s = some s := by
  rw [updateConfig, if_pos h]

/-- Witness for C8 at the pristine state and a trailLength-only
argument. -/
theorem C8_witness : updateConfig (tlOnly 5) initialState = some initialState :=
  C8_updateConfig_noop (tlOnly 5) initialState rfl

/-- Claim C9: trackMouse overwrites the stored pointer coordinates with
the event coordinates and changes nothing else - trails, configuration,
maxTrails, initialization flag, animation frame handle and registered
listeners are untouched. -/
theorem C9_trackMouse_frame (e : MouseEvent) (s : CursoryState) :
    (trackMouse e s).mouseX = e.clientX ∧
    (trackMouse e s).mouseY = e.clientY ∧
    (trackMouse e s).trails = s.trails ∧
    (trackMouse e s).config = s.config ∧
    (trackMouse e s).maxTrails = s.maxTrails ∧
    (trackMouse e s).isInitialized = s.isInitialized ∧
    (trackMouse e s).animationFrame = s.animationFrame ∧
    (trackMouse e s).listeners = s.listeners :=
  ⟨rfl, rfl, rfl, rfl, rfl, rfl, rfl, rfl⟩

/-- Claim C1 counterexample: on a freshly initialized controller with 10
markers, updateConfig with trailLength 0 does NOT leave 0 markers - the
truthiness guard of cursory.js line 112 treats 0 as absent, so the count
stays 10. -/
theorem C1_counterexample :
    (updateConfig (tlOnly 0) (init pcEmpty initialState)).map
      (fun s₂ => s₂.trails.length) ≠ some 0 ∧
    (updateConfig (tlOnly 0) (init pcEmpty initialState)).map
      (fun s₂ => s₂.trails.length) = some 10 := by
  decide

/-- Claim C1 as amended: for an initialized controller whose marker count
agrees with maxTrails, updateConfig with trailLength k yields exactly k
markers for every positive integer k; for k = 0 the marker count is left
at its prior value (only the stored configuration records 0). -/
theorem C1_updateConfig_trailLength (s : CursoryState)
    (h1 : s.isInitialized = true) (h2 : (s.trails.length : ℤ) = s.maxTrails)
    (k : ℤ) (hk : 1 ≤ k) :
    (updateConfig (tlOnly k) s).map (fun s₂ => (s₂.trails.length : ℤ)) = some k ∧
    (updateConfig (tlOnly 0) s).map (fun s₂ => s₂.trails.length) =
      some s.trails.length := by
  constructor
  · obtain ⟨s₂, heq, -, -, hcount, -⟩ :=
      updateConfig_adjust (tlOnly k) s h1 h2
        (fun k₂ h₂ => by
          rw [show (tlOnly k).trailLength = some k from rfl] at h₂
          obtain rfl := Option.some.inj h₂
          omega)
    rw [heq, Option.map_some']
    exact congrArg some (hcount k rfl hk)
  · obtain ⟨s₂, heq, -, -, -, hzero⟩ :=
      updateConfig_adjust (tlOnly 0) s h1 h2
        (fun k₂ h₂ => by
          rw [show (tlOnly 0).trailLength = some 0 from rfl] at h₂
          obtain rfl := Option.some.inj h₂
          omega)
    rw [heq, Option.map_some']
    exact congrArg some (hzero rfl)

/-- Witness for the amended C1 at the freshly initialized default
controller and k = 3. -/
theorem C1_witness :
    (updateConfig (tlOnly 3) (init pcEmpty initialState)).map
      (fun s₂ => (s₂.trails.length : ℤ)) = some 3 ∧
    (updateConfig (tlOnly 0) (init pcEmpty initialState)).map
      (fun s₂ => s₂.trails.length) =
      some (init pcEmpty initialState).trails.length :=
  C1_updateConfig_trailLength (init pcEmpty initialState) rfl (by decide)
    3 (by decide)

/-- Claim C2 (code bug): after init and destroy, the mousemove handler
registered by init (identity 0) is still attached - destroy passed a
fresh bound function (identity 1) to removeEventListener - so a later
mousemove event still overwrites the stored pointer state; the trail
array itself is emptied. -/
theorem C2_destroy_listener_bug :
    (destroy (init pcEmpty initialState)).listeners = [0] ∧
    (destroy (init pcEmpty initialState)).trails = [] ∧
    (dispatchMouseMove ⟨5, 7⟩ (destroy (init pcEmpty initialState))).mouseX = 5 ∧
    (dispatchMouseMove ⟨5, 7⟩ (destroy (init pcEmpty initialState))).mouseY = 7 := by
  decide

/-- Claim C5: called with an empty trail array (the only situation the
lifecycle produces, since destroy empties it), init creates exactly
trailLength markers - trailLength read from the merged configuration,
10 when absent - and every created marker sits at the pointer position
stored at call time (the pristine state stores (0,0)). -/
theorem C5_init_markers (p : OptConfig)
    (h : 0 ≤ (mergeConfig defaultOptions p).trailLength)
    (s : CursoryState) (hs : s.trails = []) :
    ((init p s).trails.length : ℤ) = (mergeConfig defaultOptions p).trailLength ∧
    (∀ t ∈ (init p s).trails, t.x = s.mouseX ∧ t.y = s.mouseY) ∧
    (p.trailLength = none → (init p s).trails.length = 10) := by
  have htr : (init p s).trails =
      animateTrails s.mouseX s.mouseY (mergeConfig defaultOptions p).followSpeed
        (s.trails ++ List.replicate (mergeConfig defaultOptions p).trailLength.toNat
          (newTrail (mergeConfig defaultOptions p) s.mouseX s.mouseY)) := rfl
  rw [htr, hs, List.nil_append]
  refine ⟨?_, ?_, ?_⟩
  · rw [length_animateTrails, List.length_replicate, Int.toNat_of_nonneg h]
  · intro t ht
    rw [animateTrails_eq_map] at ht
    simp only [List.mem_map, List.mem_replicate] at ht
    obtain ⟨t₀, ⟨-, rfl⟩, rfl⟩ := ht
    rw [updateTrail_stationary]
    exact ⟨rfl, rfl⟩
  · intro hnone
    rw [length_animateTrails, List.length_replicate]
    simp [mergeConfig, hnone, defaultOptions]

/-- Witness for C5 at the empty configuration argument and the pristine
state: 10 markers, all at (0,0). -/
theorem C5_witness :
    ((init pcEmpty initialState).trails.length : ℤ) =
      (mergeConfig defaultOptions pcEmpty).trailLength ∧
    (∀ t ∈ (init pcEmpty initialState).trails,
      t.x = initialState.mouseX ∧ t.y = initialState.mouseY) ∧
    (pcEmpty.trailLength = none → (init pcEmpty initialState).trails.length = 10) :=
  C5_init_markers pcEmpty (by decide) initialState rfl

/- ## Distance helpers for the easing step -/

theorem distSq_updateTrail (mx my fs : ℚ) (t : Trail) :
    distSq mx my (updateTrail mx my fs t) = (1 - fs) ^ 2 * distSq mx my t := by
  simp only [distSq, updateTrail]
  ring

theorem distSq_nonneg (mx my : ℚ) (t : Trail) : 0 ≤ distSq mx my t := by
  simp only [distSq]
  positivity

/-- Configuration argument of the C4 counterexample: one marker and
followSpeed 0, the left endpoint of the stated 0-1 range. -/
def pC4 : OptConfig := { trailLength := some 1, followSpeed := some 0 }

/-- Pre-tick state of the C4 counterexample: one marker at (0,0) and the
pointer moved to (1,0), distance 1. -/
def sC4 : CursoryState := trackMouse ⟨1, 0⟩ (init pC4 initialState)

/-- Claim C4 counterexample: with followSpeed 0 - inside the stated
range 0-1 - a tick with the pointer stationary leaves the squared
distance at 1: it neither strictly decreases nor is it zero, refuting
the claim at this input. -/
theorem C4_counterexample :
    0 ≤ sC4.config.followSpeed ∧ sC4.config.followSpeed ≤ 1 ∧
    sC4.trails.map (distSq sC4.mouseX sC4.mouseY) = [1] ∧
    (animate sC4).trails.map
      (distSq (animate sC4).mouseX (animate sC4).mouseY) = [1] ∧
    ¬ ((1 : ℚ) < 1 ∨ (1 : ℚ) = 0) := by
  norm_num [sC4, pC4, init, animate, trackMouse, initialState, mergeConfig,
    defaultOptions, newTrail, updateTrail, animateTrails, distSq,
    List.replicate]

/-- Claim C4 as amended: for 0 < followSpeed ≤ 1 (the stated range with
the left endpoint excluded, as the counterexample forces), a tick with
the pointer stationary never increases any marker's squared distance to
the pointer, keeps it at zero when the marker is coincident, and
strictly decreases it otherwise. Squared Euclidean distance orders
exactly as Euclidean distance. -/
theorem C4_distance_decrease (s : CursoryState)
    (h1 : 0 < s.config.followSpeed) (h2 : s.config.followSpeed ≤ 1)
    (i : ℕ) (hi : i < s.trails.length) (hi2 : i < (animate s).trails.length) :
    distSq (animate s).mouseX (animate s).mouseY
        ((animate s).trails.get ⟨i, hi2⟩) ≤
      distSq s.mouseX s.mouseY (s.trails.get ⟨i, hi⟩) ∧
    (distSq s.mouseX s.mouseY (s.trails.get ⟨i, hi⟩) = 0 →
      distSq (animate s).mouseX (animate s).mouseY
        ((animate s).trails.get ⟨i, hi2⟩) = 0) ∧
    (distSq s.mouseX s.mouseY (s.trails.get ⟨i, hi⟩) ≠ 0 →
      distSq (animate s).mouseX (animate s).mouseY
        ((animate s).trails.get ⟨i, hi2⟩) <
        distSq s.mouseX s.mouseY (s.trails.get ⟨i, hi⟩)) := by
  have hmap : (animate s).trails =
      s.trails.map (updateTrail s.mouseX s.mouseY s.config.followSpeed) := by
    show animateTrails s.mouseX s.mouseY s.config.followSpeed s.trails = _
    exact animateTrails_eq_map _ _ _ _
  have hget : (animate s).trails.get ⟨i, hi2⟩ =
      updateTrail s.mouseX s.mouseY s.config.followSpeed (s.trails.get ⟨i, hi⟩) := by
    simp only [List.get_eq_getElem]
    simp only [hmap, List.getElem_map]
  have hmouse : distSq (animate s).mouseX (animate s).mouseY
      ((animate s).trails.get ⟨i, hi2⟩) =
      (1 - s.config.followSpeed) ^ 2 *
        distSq s.mouseX s.mouseY (s.trails.get ⟨i, hi⟩) := by
    show distSq s.mouseX s.mouseY ((animate s).trails.get ⟨i, hi2⟩) = _
    rw [hget, distSq_updateTrail]
  set fs := s.config.followSpeed with hfs
  set d := distSq s.mouseX s.mouseY (s.trails.get ⟨i, hi⟩) with hd
  have hdnn : 0 ≤ d := distSq_nonneg _ _ _
  have hsq : (1 - fs) ^ 2 ≤ 1 := by nlinarith
  refine ⟨?_, ?_, ?_⟩
  · rw [hmouse]
    nlinarith
  · intro hzero
    rw [hmouse, hzero, mul_zero]
  · intro hne
    have hdpos : 0 < d := lt_of_le_of_ne hdnn (Ne.symm hne)
    have hsqlt : (1 - fs) ^ 2 < 1 := by nlinarith
    rw [hmouse]
    nlinarith

/-- Witness state for the amended C4: one marker at (0,0), the pointer
at (1,0), default followSpeed 1/5. -/
def sW4 : CursoryState := trackMouse ⟨1, 0⟩ (init (tlOnly 1) initialState)

/-- Witness for the amended C4 at the state sW4 and marker index 0. -/
theorem C4_witness :
    distSq (animate sW4).mouseX (animate sW4).mouseY
        ((animate sW4).trails.get ⟨0, by decide⟩) ≤
      distSq sW4.mouseX sW4.mouseY (sW4.trails.get ⟨0, by decide⟩) ∧
    (distSq sW4.mouseX sW4.mouseY (sW4.trails.get ⟨0, by decide⟩) = 0 →
      distSq (animate sW4).mouseX (animate sW4).mouseY
        ((animate sW4).trails.get ⟨0, by decide⟩) = 0) ∧
    (distSq sW4.mouseX sW4.mouseY (sW4.trails.get ⟨0, by decide⟩) ≠ 0 →
      distSq (animate sW4).mouseX (animate sW4).mouseY
        ((animate sW4).trails.get ⟨0, by decide⟩) <
        distSq sW4.mouseX sW4.mouseY (sW4.trails.get ⟨0, by decide⟩)) :=
  C4_distance_decrease sW4
    (by norm_num [sW4, tlOnly, init, animate, trackMouse, initialState,
      mergeConfig, defaultOptions])
    (by norm_num [sW4, tlOnly, init, animate, trackMouse, initialState,
      mergeConfig, defaultOptions])
    0 (by decide) (by decide)

/- ## trailSpeed noninterference helpers -/

theorem scrubTS_trackMouse (e : MouseEvent) (s : CursoryState) :
    scrubTS (trackMouse e s) = trackMouse e (scrubTS s) := rfl

theorem scrubTS_animate (s : CursoryState) :
    scrubTS (animate s) = animate (scrubTS s) := rfl

theorem scrubTS_runMT (es : List MTEvent) (s : CursoryState) :
    scrubTS (runMT es s) = runMT es (scrubTS s) := by
  induction es generalizing s with
  | nil => rfl
  | cons e es ih =>
    cases e with
    | move ev =>
      show scrubTS (runMT es (trackMouse ev s)) = runMT es (trackMouse ev (scrubTS s))
      rw [ih]
      exact congrArg (runMT es) (scrubTS_trackMouse ev s)
    | tick =>
      show scrubTS (runMT es (animate s)) = runMT es (animate (scrubTS s))
      rw [ih]
      exact congrArg (runMT es) (scrubTS_animate s)

theorem scrubTS_init (p₁ p₂ : OptConfig)
    (hc : p₁.trailColor = p₂.trailColor) (hl : p₁.trailLength = p₂.trailLength)
    (hsz : p₁.cursorSize = p₂.cursorSize) (ho : p₁.opacity = p₂.opacity)
    (hf : p₁.followSpeed = p₂.followSpeed) (s : CursoryState) :
    scrubTS (init p₁ s) = scrubTS (init p₂ s) := by
  simp only [scrubTS, init, animate, mergeConfig, newTrail, hc, hl, hsz, ho, hf]

/-- Claim C6: trailSpeed is merged into the configuration but never read
by the per-frame logic - two runs from init whose configuration
arguments agree on every recognized key except trailSpeed produce, under
the same sequence of pointer moves and ticks, identical marker
positions. -/
theorem C6_trailSpeed_unused (p₁ p₂ : OptConfig)
    (hc : p₁.trailColor = p₂.trailColor) (hl : p₁.trailLength = p₂.trailLength)
    (hsz : p₁.cursorSize = p₂.cursorSize) (ho : p₁.opacity = p₂.opacity)
    (hf : p₁.followSpeed = p₂.followSpeed) (es : List MTEvent) :
    (runMT es (init p₁ initialState)).trails.map (fun t => (t.x, t.y)) =
      (runMT es (init p₂ initialState)).trails.map (fun t => (t.x, t.y)) := by
  have h := congrArg (runMT es) (scrubTS_init p₁ p₂ hc hl hsz ho hf initialState)
  rw [← scrubTS_runMT, ← scrubTS_runMT] at h
  have h2 := congrArg (fun st => st.trails.map (fun t => (t.x, t.y))) h
  simpa only [scrubTS] using h2

/-- Witness for C6: trailSpeed 1 against trailSpeed 7, one pointer move
and one tick. -/
theorem C6_witness :
    (runMT [MTEvent.move ⟨3, 4⟩, MTEvent.tick]
        (init { trailSpeed := some 1 } initialState)).trails.map
      (fun t => (t.x, t.y)) =
      (runMT [MTEvent.move ⟨3, 4⟩, MTEvent.tick]
        (init { trailSpeed := some 7 } initialState)).trails.map
      (fun t => (t.x, t.y)) :=
  C6_trailSpeed_unused { trailSpeed := some 1 } { trailSpeed := some 7 }
    rfl rfl rfl rfl rfl [MTEvent.move ⟨3, 4⟩, MTEvent.tick]

/- ## Reachability invariant -/

theorem init_length (p : OptConfig) (s : CursoryState) (hs : s.trails = [])
    (h : 0 ≤ (mergeConfig defaultOptions p).trailLength) :
    ((init p s).trails.length : ℤ) = (init p s).maxTrails := by
  have htr : (init p s).trails =
      animateTrails s.mouseX s.mouseY (mergeConfig defaultOptions p).followSpeed
        (s.trails ++ List.replicate (mergeConfig defaultOptions p).trailLength.toNat
          (newTrail (mergeConfig defaultOptions p) s.mouseX s.mouseY)) := rfl
  have hmt : (init p s).maxTrails = (mergeConfig defaultOptions p).trailLength := rfl
  rw [htr, hs, List.nil_append, hmt, length_animateTrails,
    List.length_replicate, Int.toNat_of_nonneg h]

theorem goodTL_merge_nonneg (p : OptConfig) (hp : goodTL p) :
    0 ≤ (mergeConfig defaultOptions p).trailLength := by
  cases hpl : p.trailLength with
  | none => simp [mergeConfig, hpl, defaultOptions]
  | some k =>
    have := hp k hpl
    simp only [mergeConfig, hpl, Option.getD_some]
    exact this

theorem reachable_inv (s : CursoryState) (h : Reachable s) : StateInv s := by
  induction h with
  | initial =>
    exact ⟨fun h => absurd h (by decide), fun _ => rfl⟩
  | step_init hr hini hgood ih =>
    constructor
    · intro _
      exact init_length _ _ (ih.2 hini) (goodTL_merge_nonneg _ hgood)
    · intro hfalse
      exact Bool.noConfusion (show true = false from hfalse)
  | step_track hr ih =>
    exact ih
  | step_animate hr ih =>
    constructor
    · intro hi
      show ((animateTrails _ _ _ _).length : ℤ) = _
      rw [length_animateTrails]
      exact ih.1 hi
    · intro hf
      show animateTrails _ _ _ _ = []
      rw [ih.2 hf]
      rfl
  | step_update hr hgood heq ih =>
    rename_i s' s₂ p
    by_cases hflag : s'.isInitialized = true
    · obtain ⟨s₃, heq', hfl, hinv, -, -⟩ :=
        updateConfig_adjust p s' hflag (ih.1 hflag) hgood
      rw [heq'] at heq
      obtain rfl := Option.some.inj heq
      constructor
      · intro _
        exact hinv
      · intro hf
        rw [hfl, hflag] at hf
        exact Bool.noConfusion hf
    · have hflag' : s'.isInitialized = false := by
        cases hb : s'.isInitialized
        · rfl
        · exact absurd hb hflag
      rw [updateConfig, if_pos hflag'] at heq
      obtain rfl := Option.some.inj heq
      exact ih
  | step_destroy hr ih =>
    rename_i s'
    by_cases hflag : s'.isInitialized = false
    · rw [show destroy s' = s' from by rw [destroy, if_pos hflag]]
      exact ih
    · constructor
      · intro hi
        rw [destroy, if_neg hflag] at hi
        exact absurd (show (false : Bool) = true from hi) (by decide)
      · intro _
        rw [destroy, if_neg hflag]

/-- Claim C10: in every run in which supplied trailLength values are
non-negative integers and init runs only on a non-initialized
controller, every reachable initialized state has exactly maxTrails
markers in the trail array. -/
theorem C10_trails_maxTrails (s : CursoryState) (h : Reachable s)
    (hin : s.isInitialized = true) : (s.trails.length : ℤ) = s.maxTrails :=
  (reachable_inv s h).1 hin

/-- Witness for C10 at the state reached by a single default init from
the pristine state. -/
theorem C10_witness :
    ((init pcEmpty initialState).trails.length : ℤ) =
      (init pcEmpty initialState).maxTrails :=
  C10_trails_maxTrails (init pcEmpty initialState)
    (Reachable.step_init Reachable.initial rfl (fun _ hk => Option.noConfusion hk))
    rfl

end Cursory
